import Mathlib

/-!
Verification of the data-model layer of the prompt-manager repository
(`src/app/models.py`).  The file declares three persistent SQLModel
entities (`PromptCategory`, `Prompt`, `PromptExecution`) and a family of
transient Create/Update/helper schemas.  We embed each class as a Lean
structure whose fields, types and defaults mirror the Python
declarations, and each declared field constraint (`max_length`, `ge`,
`le`, `decimal_places`, `max_digits`) as a Boolean validator over the
structure, exactly as Pydantic validation would apply it.

Type mapping used throughout:
* `str` -> `String`, `int` -> `Int`, `bool` -> `Bool`;
* `datetime` -> `DateTime` (an abstract tick count);
* `Decimal` -> `ℚ` (exact decimals are rationals; validation of
  `decimal_places` / `max_digits` is expressed arithmetically);
* `float` -> `ℚ` (the `ModelSettings` floats are only ever compared to
  the exactly-representable bounds 0, 1, 2, -2, so rational arithmetic
  is faithful for the validation logic);
* `Dict[str, Any]` -> `List (String × Json)` with `Json` an arbitrary
  structured value; `List[str]` -> `List String`;
* `Optional[T]` -> `Option T`.

ORM `Relationship` attributes (`category.prompts`, `prompt.category`,
`prompt.executions`, `execution.prompt`) are back-references derived
from the foreign-key columns, not stored columns; they are not embedded
(the spec itself directs reimplementations to replace them with queries
over the foreign keys).
-/

/-- An abstract `datetime` value: only creation/ordering metadata, never
computed with in this fragment. -/
abbrev DateTime := Nat

/-- An arbitrary structured JSON value, the embedding of Python `Any`
inside the schema-less JSON columns. -/
inductive Json where
  | null : Json
  | bool (b : Bool) : Json
  | num (q : ℚ) : Json
  | str (s : String) : Json
  | arr (elems : List Json) : Json
  | obj (entries : List (String × Json)) : Json

/-- The embedding of a Python `Dict[str, Any]` JSON column. -/
abbrev JsonDict := List (String × Json)

/-- Pydantic `max_length=limit` on a string field: the value passes when
its length does not exceed the limit (a hard validation failure, not
truncation, beyond it). -/
def maxLenOk (limit : Nat) (s : String) : Bool :=
  s.length ≤ limit

/-- Constraint on an `Optional[...]` field: a missing value always
passes, a present value must pass the underlying check. -/
def optOk (f : α → Bool) : Option α → Bool
  | none => true
  | some v => f v

/-- Pydantic `decimal_places=p, max_digits=d` on a `Decimal` field:
at most `p` actual decimal places (`q * 10^p` is an integer) and at most
`d - p` digits before the point (`|q| < 10^(d-p)`); together these bound
the total digits by `d`, matching Pydantic's decimal validator. -/
def decimalOk (decimalPlaces maxDigits : Nat) (q : ℚ) : Bool :=
  (q * (10 : ℚ) ^ decimalPlaces).den == 1 && decide (|q| < (10 : ℚ) ^ (maxDigits - decimalPlaces))

/-! ## Persistent models (stored in database) -/

/-- Table `prompt_categories` (`class PromptCategory`, models.py lines
8-18).  `created_at`/`updated_at` have `default_factory=datetime.utcnow`
and are therefore supplied by the environment, not constants. -/
structure PromptCategory where
  id : Option Int := none
  name : String
  description : String := ""
  color : String := "#3B82F6"
  created_at : DateTime
  updated_at : DateTime

/-- The declared per-field constraints of `PromptCategory`:
`name` max_length 100, `description` max_length 500, `color`
max_length 7.  (`unique=True` on `name` is a cross-record storage
constraint, not a per-record validation, and is not part of this
per-record validator.)  Note the source constrains `color` only by
`max_length=7`; the hex format exists only in a comment. -/
def validPromptCategory (c : PromptCategory) : Bool :=
  maxLenOk 100 c.name && maxLenOk 500 c.description && maxLenOk 7 c.color

/-- Table `prompts` (`class Prompt`, models.py lines 21-50). -/
structure Prompt where
  id : Option Int := none
  title : String
  description : String := ""
  content : String
  version : String := "1.0.0"
  is_active : Bool := true
  is_template : Bool := false
  usage_count : Int := 0
  rating : Option ℚ := none
  «variables» : JsonDict := []
  settings : JsonDict := []
  prompt_metadata : JsonDict := []
  tags : List String := []
  category_id : Option Int := none
  created_at : DateTime
  updated_at : DateTime
  last_used_at : Option DateTime := none

/-- The declared per-field constraints of `Prompt`: `title` max_length
200, `description` max_length 1000, `content` max_length 10000,
`version` max_length 20, `rating` decimal_places 2 / max_digits 3.
Note the source gives `rating` no `ge`/`le` bound; the range 0.00-5.00
exists only in a comment. -/
def validPrompt (p : Prompt) : Bool :=
  maxLenOk 200 p.title && maxLenOk 1000 p.description &&
    maxLenOk 10000 p.content && maxLenOk 20 p.version &&
    optOk (decimalOk 2 3) p.rating

/-- Table `prompt_executions` (`class PromptExecution`, models.py lines
53-81). -/
structure PromptExecution where
  id : Option Int := none
  prompt_id : Int
  input_data : JsonDict := []
  output_data : JsonDict := []
  model_name : String := ""
  model_settings : JsonDict := []
  execution_time_ms : Option Int := none
  token_count : Option Int := none
  cost : Option ℚ := none
  status : String := "completed"
  error_message : Option String := none
  user_rating : Option Int := none
  user_feedback : Option String := none
  created_at : DateTime
  completed_at : Option DateTime := none

/-- The declared per-field constraints of `PromptExecution`:
`model_name` max_length 100, `cost` decimal_places 6 / max_digits 10,
`status` max_length 50, `error_message` max_length 1000, `user_rating`
ge 1 / le 5, `user_feedback` max_length 2000.  Note the source
constrains `status` only by `max_length=50`; the value set
completed/failed/cancelled exists only in a comment. -/
def validPromptExecution (e : PromptExecution) : Bool :=
  maxLenOk 100 e.model_name && optOk (decimalOk 6 10) e.cost &&
    maxLenOk 50 e.status && optOk (maxLenOk 1000) e.error_message &&
    optOk (fun r => decide (1 ≤ r ∧ r ≤ 5)) e.user_rating &&
    optOk (maxLenOk 2000) e.user_feedback

/-! ## Non-persistent schemas (validation, forms, API requests)

A parsed Pydantic/SQLModel instance records, besides each field's value,
which fields the client actually supplied (`__fields_set__`, consulted
by `model_dump(exclude_unset=True)`).  For the Update schemas this
presence information is what partial-update semantics consult, so each
Update structure carries one `*_set : Bool` flag per field alongside the
declared `Optional` value: an omitted field has value `none` and flag
`false`; a field explicitly supplied as `null` has value `none` and flag
`true`.  Create schemas apply their declared defaults at parse time, so
they carry values only. -/

/-- `class PromptCategoryCreate` (models.py lines 85-88). -/
structure PromptCategoryCreate where
  name : String
  description : String := ""
  color : String := "#3B82F6"

/-- Declared constraints of `PromptCategoryCreate`: `name` max_length
100, `description` max_length 500, `color` max_length 7. -/
def validPromptCategoryCreate (c : PromptCategoryCreate) : Bool :=
  maxLenOk 100 c.name && maxLenOk 500 c.description && maxLenOk 7 c.color

/-- `class PromptCategoryUpdate` (models.py lines 91-94): every field
`Optional`, default `None`, plus its presence flag. -/
structure PromptCategoryUpdate where
  name : Option String := none
  name_set : Bool := false
  description : Option String := none
  description_set : Bool := false
  color : Option String := none
  color_set : Bool := false

/-- Declared constraints of `PromptCategoryUpdate` on supplied values:
`name` max_length 100, `description` max_length 500, `color`
max_length 7. -/
def validPromptCategoryUpdate (u : PromptCategoryUpdate) : Bool :=
  optOk (maxLenOk 100) u.name && optOk (maxLenOk 500) u.description &&
    optOk (maxLenOk 7) u.color

/-- `class PromptCreate` (models.py lines 97-107). -/
structure PromptCreate where
  title : String
  description : String := ""
  content : String
  version : String := "1.0.0"
  is_template : Bool := false
  «variables» : JsonDict := []
  settings : JsonDict := []
  prompt_metadata : JsonDict := []
  tags : List String := []
  category_id : Option Int := none

/-- Declared constraints of `PromptCreate`: `title` max_length 200,
`description` max_length 1000, `content` max_length 10000, `version`
max_length 20. -/
def validPromptCreate (c : PromptCreate) : Bool :=
  maxLenOk 200 c.title && maxLenOk 1000 c.description &&
    maxLenOk 10000 c.content && maxLenOk 20 c.version

/-- `class PromptUpdate` (models.py lines 110-122): every field
`Optional`, default `None`, plus its presence flag. -/
structure PromptUpdate where
  title : Option String := none
  title_set : Bool := false
  description : Option String := none
  description_set : Bool := false
  content : Option String := none
  content_set : Bool := false
  version : Option String := none
  version_set : Bool := false
  is_active : Option Bool := none
  is_active_set : Bool := false
  is_template : Option Bool := none
  is_template_set : Bool := false
  rating : Option ℚ := none
  rating_set : Bool := false
  «variables» : Option JsonDict := none
  variables_set : Bool := false
  settings : Option JsonDict := none
  settings_set : Bool := false
  prompt_metadata : Option JsonDict := none
  prompt_metadata_set : Bool := false
  tags : Option (List String) := none
  tags_set : Bool := false
  category_id : Option Int := none
  category_id_set : Bool := false

/-- Declared constraints of `PromptUpdate` on supplied values: `title`
max_length 200, `description` max_length 1000, `content` max_length
10000, `version` max_length 20, `rating` decimal_places 2 / max_digits
3 (again with no `ge`/`le` bound in the source). -/
def validPromptUpdate (u : PromptUpdate) : Bool :=
  optOk (maxLenOk 200) u.title && optOk (maxLenOk 1000) u.description &&
    optOk (maxLenOk 10000) u.content && optOk (maxLenOk 20) u.version &&
    optOk (decimalOk 2 3) u.rating

/-- `class PromptExecutionCreate` (models.py lines 125-130): the only
client-suppliable fields of an execution are `prompt_id`, `input_data`,
`model_name` and `model_settings`. -/
structure PromptExecutionCreate where
  prompt_id : Int
  input_data : JsonDict := []
  model_name : String := ""
  model_settings : JsonDict := []

/-- Declared constraints of `PromptExecutionCreate`: `model_name`
max_length 100. -/
def validPromptExecutionCreate (c : PromptExecutionCreate) : Bool :=
  maxLenOk 100 c.model_name

/-- `class PromptExecutionUpdate` (models.py lines 132-141): every field
`Optional`, default `None`, plus its presence flag.  The schema has no
`prompt_id`, `input_data`, `model_name`, `model_settings` or
`created_at` field. -/
structure PromptExecutionUpdate where
  output_data : Option JsonDict := none
  output_data_set : Bool := false
  execution_time_ms : Option Int := none
  execution_time_ms_set : Bool := false
  token_count : Option Int := none
  token_count_set : Bool := false
  cost : Option ℚ := none
  cost_set : Bool := false
  status : Option String := none
  status_set : Bool := false
  error_message : Option String := none
  error_message_set : Bool := false
  user_rating : Option Int := none
  user_rating_set : Bool := false
  user_feedback : Option String := none
  user_feedback_set : Bool := false
  completed_at : Option DateTime := none
  completed_at_set : Bool := false

/-- Declared constraints of `PromptExecutionUpdate` on supplied values:
`cost` decimal_places 6 / max_digits 10, `status` max_length 50,
`error_message` max_length 1000, `user_rating` ge 1 / le 5,
`user_feedback` max_length 2000. -/
def validPromptExecutionUpdate (u : PromptExecutionUpdate) : Bool :=
  optOk (decimalOk 6 10) u.cost && optOk (maxLenOk 50) u.status &&
    optOk (maxLenOk 1000) u.error_message &&
    optOk (fun r => decide (1 ≤ r ∧ r ≤ 5)) u.user_rating &&
    optOk (maxLenOk 2000) u.user_feedback

/-- `class ModelSettings` (models.py lines 154-161), the structural
validation schema for model-settings JSON payloads. -/
structure ModelSettings where
  temperature : Option ℚ := none
  max_tokens : Option Int := none
  top_p : Option ℚ := none
  frequency_penalty : Option ℚ := none
  presence_penalty : Option ℚ := none
  stop_sequences : List String := []
  system_message : Option String := none

/-- Declared constraints of `ModelSettings`: `temperature` ge 0 / le 2,
`max_tokens` ge 1, `top_p` ge 0 / le 1, `frequency_penalty` and
`presence_penalty` ge -2 / le 2, `system_message` max_length 2000. -/
def validModelSettings (s : ModelSettings) : Bool :=
  optOk (fun t => decide (0 ≤ t ∧ t ≤ 2)) s.temperature &&
    optOk (fun m => decide (1 ≤ m)) s.max_tokens &&
    optOk (fun t => decide (0 ≤ t ∧ t ≤ 1)) s.top_p &&
    optOk (fun t => decide (-2 ≤ t ∧ t ≤ 2)) s.frequency_penalty &&
    optOk (fun t => decide (-2 ≤ t ∧ t ≤ 2)) s.presence_penalty &&
    optOk (maxLenOk 2000) s.system_message

/-! ## Service operations

The repository fragment contains only the schema declarations; the
service layer that applies a Create/Update schema to the store is an
external collaborator.  The operations below are therefore modelled
from the spec (sections 4.2 and 8): a Create is persisted by copying its
fields and letting every non-client field take the entity's declared
default, and an Update is applied with PATCH semantics, overwriting
exactly the fields the client supplied (`exclude_unset`) and leaving
every other column unchanged.  The `updated_at` refresh the spec
assigns to the owning service is a separate effect around this merge,
not part of the payload-to-record merge itself. -/

/-- Modelled from the spec: PATCH merge of one supplied-or-not payload
field into a nullable stored column (spec 4.2: a field left unset
leaves the stored value unchanged; a supplied field overwrites exactly,
where supplying `null` stores `null`). -/
def patchOpt (provided : Bool) (new old : Option α) : Option α :=
  if provided then new else old

/-- Modelled from the spec: PATCH merge of one supplied-or-not payload
field into a non-nullable stored column.  A supplied non-null value
overwrites the column; an unset field leaves it unchanged.  (A `null`
supplied against a non-nullable column has no lawful stored image, so
the merge keeps the old value for it.) -/
def patchReq (provided : Bool) (new : Option α) (old : α) : α :=
  if provided then new.getD old else old

/-- Modelled from the spec: applying a parsed `PromptCategoryUpdate` to
a stored `PromptCategory` with partial-update semantics (spec 4.2). -/
def applyPromptCategoryUpdate (c : PromptCategory) (u : PromptCategoryUpdate) :
    PromptCategory :=
  { c with
    name := patchReq u.name_set u.name c.name
    description := patchReq u.description_set u.description c.description
    color := patchReq u.color_set u.color c.color }

/-- Modelled from the spec: applying a parsed `PromptUpdate` to a stored
`Prompt` with partial-update semantics (spec 4.2).  `rating` and
`category_id` are nullable columns, so an explicit `null` is stored;
every other updatable column is non-nullable. -/
def applyPromptUpdate (p : Prompt) (u : PromptUpdate) : Prompt :=
  { p with
    title := patchReq u.title_set u.title p.title
    description := patchReq u.description_set u.description p.description
    content := patchReq u.content_set u.content p.content
    version := patchReq u.version_set u.version p.version
    is_active := patchReq u.is_active_set u.is_active p.is_active
    is_template := patchReq u.is_template_set u.is_template p.is_template
    rating := patchOpt u.rating_set u.rating p.rating
    «variables» := patchReq u.variables_set u.«variables» p.«variables»
    settings := patchReq u.settings_set u.settings p.settings
    prompt_metadata := patchReq u.prompt_metadata_set u.prompt_metadata p.prompt_metadata
    tags := patchReq u.tags_set u.tags p.tags
    category_id := patchOpt u.category_id_set u.category_id p.category_id }

/-- Modelled from the spec: applying a parsed `PromptExecutionUpdate` to
a stored `PromptExecution` with partial-update semantics (spec 4.2,
3: the Update attaches output, timing, cost and user feedback). -/
def applyPromptExecutionUpdate (e : PromptExecution) (u : PromptExecutionUpdate) :
    PromptExecution :=
  { e with
    output_data := patchReq u.output_data_set u.output_data e.output_data
    execution_time_ms := patchOpt u.execution_time_ms_set u.execution_time_ms e.execution_time_ms
    token_count := patchOpt u.token_count_set u.token_count e.token_count
    cost := patchOpt u.cost_set u.cost e.cost
    status := patchReq u.status_set u.status e.status
    error_message := patchOpt u.error_message_set u.error_message e.error_message
    user_rating := patchOpt u.user_rating_set u.user_rating e.user_rating
    user_feedback := patchOpt u.user_feedback_set u.user_feedback e.user_feedback
    completed_at := patchOpt u.completed_at_set u.completed_at e.completed_at }

/-- Modelled from the spec: persisting a `PromptCreate` (spec 4.2, 8.1:
the server copies the client-settable fields and every other column of
the new `Prompt` takes its declared default; `id` is left for the
storage layer to assign and both timestamps are set to the creation
instant). -/
def mkPrompt (c : PromptCreate) (now : DateTime) : Prompt :=
  { title := c.title
    description := c.description
    content := c.content
    version := c.version
    is_template := c.is_template
    «variables» := c.«variables»
    settings := c.settings
    prompt_metadata := c.prompt_metadata
    tags := c.tags
    category_id := c.category_id
    created_at := now
    updated_at := now }

/-- Modelled from the spec: persisting a `PromptExecutionCreate` (spec
3: only `prompt_id`, `input_data`, `model_name`, `model_settings` are
client-supplied; every other column takes its declared default). -/
def mkPromptExecution (c : PromptExecutionCreate) (now : DateTime) :
    PromptExecution :=
  { prompt_id := c.prompt_id
    input_data := c.input_data
    model_name := c.model_name
    model_settings := c.model_settings
    created_at := now }

/-- Modelled from the spec: the create endpoint validates before any
storage write (spec 7: validation errors are rejected before any
storage write), so an invalid `PromptCreate` yields an error and no
persisted record. -/
def createPrompt (c : PromptCreate) (now : DateTime) : Except String Prompt :=
  if validPromptCreate c then Except.ok (mkPrompt c now) else Except.error "validation error"

/-- The color format the spec asserts (spec 3: "exactly a 7-character
hex color code"): a hash sign followed by six hexadecimal digits.  This
definition follows the spec wording, for comparison against what the
source actually enforces. -/
def specHexColor (s : String) : Bool :=
  s.length == 7 && s.data.take 1 == ['#'] &&
    (s.data.drop 1).all fun ch =>
      ch.isDigit || ('a' ≤ ch && ch ≤ 'f') || ('A' ≤ ch && ch ≤ 'F')

/-! ## Update intents for the omitted-versus-null distinction -/

/-- The `PromptUpdate` a client obtains by supplying no field at all:
every value is its parse default `none` and no presence flag is on. -/
def omitAllPromptUpdate : PromptUpdate := {}

/-- The `PromptUpdate` parsed from a payload whose only entry sets
`description` explicitly to `null`. -/
def setDescriptionNull : PromptUpdate :=
  { description := none, description_set := true }

/-- The `PromptUpdate` parsed from a payload whose only entry sets
`category_id` explicitly to `null`. -/
def setCategoryIdNull : PromptUpdate :=
  { category_id := none, category_id_set := true }

/-- The `PromptUpdate` parsed from a payload whose only entry sets
`rating` explicitly to `null`. -/
def setRatingNull : PromptUpdate :=
  { rating := none, rating_set := true }

/-- A stored `Prompt` whose `rating` is 9.99: three digits, two decimal
places, yet outside the documented range 0.00-5.00. -/
def overRatedPrompt : Prompt :=
  { title := "t"
    content := "c"
    rating := some (999 / 100)
    created_at := 0
    updated_at := 0 }

/-- A stored `PromptExecution` whose `status` is the string "pending",
outside the documented value set completed/failed/cancelled. -/
def pendingExecution : PromptExecution :=
  { prompt_id := 1
    status := "pending"
    created_at := 0 }

/-! ## Theorems -/

/-- The value 9.99 passes the declared `decimal_places=2, max_digits=3`
check: it has three digits and two decimal places. -/
theorem decimalOk_999_100 : decimalOk 2 3 (999 / 100 : ℚ) = true := by
  have h : (999 / 100 : ℚ) * 10 ^ 2 = ((999 : ℤ) : ℚ) := by norm_num
  simp [decimalOk, h, Rat.den_intCast]
  rw [abs_of_nonneg (by norm_num)]
  norm_num

/-- Claim C2: for each nullable attribute of `PromptUpdate`
(`description`, `category_id`, `rating`) the schema representation
distinguishes "field not provided" from "field explicitly set to null":
the omit intent and the set-to-null intent are distinct representations
(they differ in the presence flag), even though the plain optional field
value is `none` in both. -/
theorem update_omitted_vs_explicit_null_distinct :
    (omitAllPromptUpdate ≠ setDescriptionNull ∧
      omitAllPromptUpdate.description = setDescriptionNull.description) ∧
    (omitAllPromptUpdate ≠ setCategoryIdNull ∧
      omitAllPromptUpdate.category_id = setCategoryIdNull.category_id) ∧
    (omitAllPromptUpdate ≠ setRatingNull ∧
      omitAllPromptUpdate.rating = setRatingNull.rating) := by
  refine ⟨⟨fun h => ?_, rfl⟩, ⟨fun h => ?_, rfl⟩, ⟨fun h => ?_, rfl⟩⟩
  · exact absurd (congrArg PromptUpdate.description_set h) (by decide)
  · exact absurd (congrArg PromptUpdate.category_id_set h) (by decide)
  · exact absurd (congrArg PromptUpdate.rating_set h) (by decide)

/-- Claim C3 (failing input): the source constrains `color` only by
`max_length=7`, so the non-hex three-character string "red" passes the
declared validation of `PromptCategoryCreate` even though it is not a
7-character hex color code; the default is `#3B82F6`, which is one. -/
theorem color_accepts_non_hex_string :
    validPromptCategoryCreate { name := "Marketing", color := "red" } = true ∧
    specHexColor "red" = false ∧
    ({ name := "Marketing" } : PromptCategoryCreate).color = "#3B82F6" ∧
    ({ name := "Marketing", created_at := 0, updated_at := 0 } : PromptCategory).color = "#3B82F6" ∧
    specHexColor "#3B82F6" = true := by
  refine ⟨by decide, by decide, rfl, rfl, by decide⟩

/-- Claim C4 (failing input): the source gives `rating` only
`decimal_places=2, max_digits=3` and no range bound, so the value 9.99
passes the declared validation of both `Prompt` and `PromptUpdate`
although it lies outside the documented range 0.00-5.00. -/
theorem rating_accepts_value_beyond_five :
    validPrompt overRatedPrompt = true ∧ overRatedPrompt.rating = some (999 / 100) ∧
    validPromptUpdate { rating := some (999 / 100), rating_set := true } = true ∧
    ¬((999 / 100 : ℚ) ≤ 5) := by
  refine ⟨?_, rfl, ?_, by norm_num⟩
  · simp [validPrompt, overRatedPrompt, maxLenOk, optOk, decimalOk_999_100]
    decide
  · simp [validPromptUpdate, optOk, decimalOk_999_100]

/-- Claim C5 (failing input): the source constrains `status` only by
`max_length=50`, so the string "pending" passes the declared validation
of both `PromptExecution` and `PromptExecutionUpdate` although it is
not one of the documented values completed/failed/cancelled. -/
theorem status_accepts_value_outside_documented_set :
    validPromptExecution pendingExecution = true ∧ pendingExecution.status = "pending" ∧
    validPromptExecutionUpdate { status := some "pending", status_set := true } = true ∧
    "pending" ∉ (["completed", "failed", "cancelled"] : List String) := by
  refine ⟨by decide, rfl, by decide, by decide⟩

/-- Claim C6: a `Prompt` persisted from a `PromptCreate` that supplies
only the required fields (`title`, `content`) carries the declared
defaults on every unsupplied field: `version` "1.0.0", `is_active`
true, `is_template` false, `usage_count` 0, `description` empty, the
JSON mappings empty, `tags` empty, and `rating`, `category_id`,
`last_used_at` null. -/
theorem promptCreate_defaults_persist :
    ∀ (t c : String) (now : DateTime),
      (mkPrompt { title := t, content := c } now).version = "1.0.0" ∧
      (mkPrompt { title := t, content := c } now).is_active = true ∧
      (mkPrompt { title := t, content := c } now).is_template = false ∧
      (mkPrompt { title := t, content := c } now).usage_count = 0 ∧
      (mkPrompt { title := t, content := c } now).description = "" ∧
      (mkPrompt { title := t, content := c } now).«variables» = [] ∧
      (mkPrompt { title := t, content := c } now).settings = [] ∧
      (mkPrompt { title := t, content := c } now).prompt_metadata = [] ∧
      (mkPrompt { title := t, content := c } now).tags = [] ∧
      (mkPrompt { title := t, content := c } now).rating = none ∧
      (mkPrompt { title := t, content := c } now).category_id = none ∧
      (mkPrompt { title := t, content := c } now).last_used_at = none :=
  fun _ _ _ => ⟨rfl, rfl, rfl, rfl, rfl, rfl, rfl, rfl, rfl, rfl, rfl, rfl⟩

/-- Claim C10: `PromptExecutionUpdate` has no `prompt_id`,
`input_data`, `model_name`, `model_settings` or `created_at` field, so
applying any update payload to any stored execution leaves the prompt
association and the input snapshot unchanged. -/
theorem executionUpdate_preserves_input_snapshot :
    ∀ (e : PromptExecution) (u : PromptExecutionUpdate),
      (applyPromptExecutionUpdate e u).prompt_id = e.prompt_id ∧
      (applyPromptExecutionUpdate e u).input_data = e.input_data ∧
      (applyPromptExecutionUpdate e u).model_name = e.model_name ∧
      (applyPromptExecutionUpdate e u).model_settings = e.model_settings ∧
      (applyPromptExecutionUpdate e u).created_at = e.created_at :=
  fun _ _ => ⟨rfl, rfl, rfl, rfl, rfl⟩

/-- Claim C1: applying an Update payload changes exactly the fields the
payload supplies.  For each of the three entity/Update pairs: a payload
field whose presence flag is off leaves the stored column unchanged; a
supplied field overwrites the stored column exactly (for the nullable
columns `rating`, `category_id` and the optional execution columns the
supplied value is stored as is, null included); and every column with
no counterpart in the payload schema is untouched by the merge. -/
theorem update_changes_exactly_supplied_fields :
    (∀ (c : PromptCategory) (u : PromptCategoryUpdate),
      (u.name_set = false → (applyPromptCategoryUpdate c u).name = c.name) ∧
      (∀ v, u.name_set = true → u.name = some v → (applyPromptCategoryUpdate c u).name = v) ∧
      (u.description_set = false → (applyPromptCategoryUpdate c u).description = c.description) ∧
      (∀ v, u.description_set = true → u.description = some v → (applyPromptCategoryUpdate c u).description = v) ∧
      (u.color_set = false → (applyPromptCategoryUpdate c u).color = c.color) ∧
      (∀ v, u.color_set = true → u.color = some v → (applyPromptCategoryUpdate c u).color = v) ∧
      (applyPromptCategoryUpdate c u).id = c.id ∧
      (applyPromptCategoryUpdate c u).created_at = c.created_at ∧
      (applyPromptCategoryUpdate c u).updated_at = c.updated_at) ∧
    (∀ (p : Prompt) (u : PromptUpdate),
      (u.title_set = false → (applyPromptUpdate p u).title = p.title) ∧
      (∀ v, u.title_set = true → u.title = some v → (applyPromptUpdate p u).title = v) ∧
      (u.description_set = false → (applyPromptUpdate p u).description = p.description) ∧
      (∀ v, u.description_set = true → u.description = some v → (applyPromptUpdate p u).description = v) ∧
      (u.content_set = false → (applyPromptUpdate p u).content = p.content) ∧
      (∀ v, u.content_set = true → u.content = some v → (applyPromptUpdate p u).content = v) ∧
      (u.version_set = false → (applyPromptUpdate p u).version = p.version) ∧
      (∀ v, u.version_set = true → u.version = some v → (applyPromptUpdate p u).version = v) ∧
      (u.is_active_set = false → (applyPromptUpdate p u).is_active = p.is_active) ∧
      (∀ v, u.is_active_set = true → u.is_active = some v → (applyPromptUpdate p u).is_active = v) ∧
      (u.is_template_set = false → (applyPromptUpdate p u).is_template = p.is_template) ∧
      (∀ v, u.is_template_set = true → u.is_template = some v → (applyPromptUpdate p u).is_template = v) ∧
      (u.rating_set = false → (applyPromptUpdate p u).rating = p.rating) ∧
      (u.rating_set = true → (applyPromptUpdate p u).rating = u.rating) ∧
      (u.variables_set = false → (applyPromptUpdate p u).«variables» = p.«variables») ∧
      (∀ v, u.variables_set = true → u.«variables» = some v → (applyPromptUpdate p u).«variables» = v) ∧
      (u.settings_set = false → (applyPromptUpdate p u).settings = p.settings) ∧
      (∀ v, u.settings_set = true → u.settings = some v → (applyPromptUpdate p u).settings = v) ∧
      (u.prompt_metadata_set = false → (applyPromptUpdate p u).prompt_metadata = p.prompt_metadata) ∧
      (∀ v, u.prompt_metadata_set = true → u.prompt_metadata = some v → (applyPromptUpdate p u).prompt_metadata = v) ∧
      (u.tags_set = false → (applyPromptUpdate p u).tags = p.tags) ∧
      (∀ v, u.tags_set = true → u.tags = some v → (applyPromptUpdate p u).tags = v) ∧
      (u.category_id_set = false → (applyPromptUpdate p u).category_id = p.category_id) ∧
      (u.category_id_set = true → (applyPromptUpdate p u).category_id = u.category_id) ∧
      (applyPromptUpdate p u).id = p.id ∧
      (applyPromptUpdate p u).usage_count = p.usage_count ∧
      (applyPromptUpdate p u).created_at = p.created_at ∧
      (applyPromptUpdate p u).updated_at = p.updated_at ∧
      (applyPromptUpdate p u).last_used_at = p.last_used_at) ∧
    (∀ (e : PromptExecution) (u : PromptExecutionUpdate),
      (u.output_data_set = false → (applyPromptExecutionUpdate e u).output_data = e.output_data) ∧
      (∀ v, u.output_data_set = true → u.output_data = some v → (applyPromptExecutionUpdate e u).output_data = v) ∧
      (u.execution_time_ms_set = false → (applyPromptExecutionUpdate e u).execution_time_ms = e.execution_time_ms) ∧
      (u.execution_time_ms_set = true → (applyPromptExecutionUpdate e u).execution_time_ms = u.execution_time_ms) ∧
      (u.token_count_set = false → (applyPromptExecutionUpdate e u).token_count = e.token_count) ∧
      (u.token_count_set = true → (applyPromptExecutionUpdate e u).token_count = u.token_count) ∧
      (u.cost_set = false → (applyPromptExecutionUpdate e u).cost = e.cost) ∧
      (u.cost_set = true → (applyPromptExecutionUpdate e u).cost = u.cost) ∧
      (u.status_set = false → (applyPromptExecutionUpdate e u).status = e.status) ∧
      (∀ v, u.status_set = true → u.status = some v → (applyPromptExecutionUpdate e u).status = v) ∧
      (u.error_message_set = false → (applyPromptExecutionUpdate e u).error_message = e.error_message) ∧
      (u.error_message_set = true → (applyPromptExecutionUpdate e u).error_message = u.error_message) ∧
      (u.user_rating_set = false → (applyPromptExecutionUpdate e u).user_rating = e.user_rating) ∧
      (u.user_rating_set = true → (applyPromptExecutionUpdate e u).user_rating = u.user_rating) ∧
      (u.user_feedback_set = false → (applyPromptExecutionUpdate e u).user_feedback = e.user_feedback) ∧
      (u.user_feedback_set = true → (applyPromptExecutionUpdate e u).user_feedback = u.user_feedback) ∧
      (u.completed_at_set = false → (applyPromptExecutionUpdate e u).completed_at = e.completed_at) ∧
      (u.completed_at_set = true → (applyPromptExecutionUpdate e u).completed_at = u.completed_at) ∧
      (applyPromptExecutionUpdate e u).id = e.id ∧
      (applyPromptExecutionUpdate e u).prompt_id = e.prompt_id ∧
      (applyPromptExecutionUpdate e u).input_data = e.input_data ∧
      (applyPromptExecutionUpdate e u).model_name = e.model_name ∧
      (applyPromptExecutionUpdate e u).model_settings = e.model_settings ∧
      (applyPromptExecutionUpdate e u).created_at = e.created_at) := by
  refine ⟨fun c u => ?_, fun p u => ?_, fun e u => ?_⟩
  · and_intros <;> intros <;> simp_all [applyPromptCategoryUpdate, patchReq, patchOpt]
  · and_intros <;> intros <;> simp_all [applyPromptUpdate, patchReq, patchOpt]
  · and_intros <;> intros <;> simp_all [applyPromptExecutionUpdate, patchReq, patchOpt]

/-- Claim C7: `PromptExecutionCreate` consists of exactly the fields
`prompt_id`, `input_data`, `model_name`, `model_settings` (two payloads
agreeing on these four are the same payload, so there is no further
field, in particular no `status`), and an execution persisted from it
starts with `status` "completed" and `completed_at` null. -/
theorem executionCreate_fields_and_initial_status :
    (∀ c1 c2 : PromptExecutionCreate,
      c1.prompt_id = c2.prompt_id → c1.input_data = c2.input_data →
      c1.model_name = c2.model_name → c1.model_settings = c2.model_settings →
      c1 = c2) ∧
    (∀ (c : PromptExecutionCreate) (now : DateTime),
      (mkPromptExecution c now).status = "completed" ∧
      (mkPromptExecution c now).completed_at = none) := by
  refine ⟨fun c1 c2 h1 h2 h3 h4 => ?_, fun c now => ⟨rfl, rfl⟩⟩
  cases c1; cases c2; simp_all

/-- Claim C8: `validModelSettings` enforces exactly the declared
numeric ranges: an accepted value has `temperature` in [0, 2],
`max_tokens` at least 1, `top_p` in [0, 1] and both penalties in
[-2, 2] whenever present, and a value violating any of these ranges is
rejected. -/
theorem modelSettings_ranges_enforced :
    ∀ s : ModelSettings,
      (validModelSettings s = true →
        (∀ t, s.temperature = some t → 0 ≤ t ∧ t ≤ 2) ∧
        (∀ m, s.max_tokens = some m → 1 ≤ m) ∧
        (∀ t, s.top_p = some t → 0 ≤ t ∧ t ≤ 1) ∧
        (∀ t, s.frequency_penalty = some t → -2 ≤ t ∧ t ≤ 2) ∧
        (∀ t, s.presence_penalty = some t → -2 ≤ t ∧ t ≤ 2)) ∧
      (∀ t, s.temperature = some t → (t < 0 ∨ 2 < t) → validModelSettings s = false) ∧
      (∀ m, s.max_tokens = some m → m < 1 → validModelSettings s = false) ∧
      (∀ t, s.top_p = some t → (t < 0 ∨ 1 < t) → validModelSettings s = false) ∧
      (∀ t, s.frequency_penalty = some t → (t < -2 ∨ 2 < t) → validModelSettings s = false) ∧
      (∀ t, s.presence_penalty = some t → (t < -2 ∨ 2 < t) → validModelSettings s = false) := by
  intro s
  have sound : validModelSettings s = true →
      (∀ t, s.temperature = some t → 0 ≤ t ∧ t ≤ 2) ∧
      (∀ m, s.max_tokens = some m → 1 ≤ m) ∧
      (∀ t, s.top_p = some t → 0 ≤ t ∧ t ≤ 1) ∧
      (∀ t, s.frequency_penalty = some t → -2 ≤ t ∧ t ≤ 2) ∧
      (∀ t, s.presence_penalty = some t → -2 ≤ t ∧ t ≤ 2) := by
    intro hv
    simp only [validModelSettings, Bool.and_eq_true] at hv
    obtain ⟨⟨⟨⟨⟨h1, h2⟩, h3⟩, h4⟩, h5⟩, h6⟩ := hv
    refine ⟨fun t ht => ?_, fun m hm => ?_, fun t ht => ?_, fun t ht => ?_,
      fun t ht => ?_⟩
    · rw [ht] at h1; simpa [optOk] using h1
    · rw [hm] at h2; simpa [optOk] using h2
    · rw [ht] at h3; simpa [optOk] using h3
    · rw [ht] at h4; simpa [optOk] using h4
    · rw [ht] at h5; simpa [optOk] using h5
  refine ⟨sound, fun t ht hout => ?_, fun m hm hout => ?_, fun t ht hout => ?_,
    fun t ht hout => ?_, fun t ht hout => ?_⟩
  · cases hb : validModelSettings s with
    | false => rfl
    | true =>
      exfalso
      obtain ⟨hl, hr⟩ := (sound hb).1 t ht
      rcases hout with h | h <;> linarith
  · cases hb : validModelSettings s with
    | false => rfl
    | true =>
      exfalso
      have := (sound hb).2.1 m hm
      omega
  · cases hb : validModelSettings s with
    | false => rfl
    | true =>
      exfalso
      obtain ⟨hl, hr⟩ := (sound hb).2.2.1 t ht
      rcases hout with h | h <;> linarith
  · cases hb : validModelSettings s with
    | false => rfl
    | true =>
      exfalso
      obtain ⟨hl, hr⟩ := (sound hb).2.2.2.1 t ht
      rcases hout with h | h <;> linarith
  · cases hb : validModelSettings s with
    | false => rfl
    | true =>
      exfalso
      obtain ⟨hl, hr⟩ := (sound hb).2.2.2.2 t ht
      rcases hout with h | h <;> linarith

/-- A content string of exactly 10000 characters. -/
def tenKContent : String := String.mk (List.replicate 10000 'a')

/-- A `PromptCreate` whose `content` has exactly 10000 characters and
whose other fields are small. -/
def tenKPromptCreate : PromptCreate :=
  { title := "t"
    content := tenKContent }

/-- Claim C9: every declared max-length constraint accepts a string of
exactly the limit and rejects one of limit + 1; in particular the
10000-character bound on `content` of `Prompt` and `PromptCreate` is
sharp (a concrete 10000-character content passes the whole Create
validation), an over-long `content` makes the whole record invalid
whatever the other fields, and the create operation then yields a
validation error and no persisted record. -/
theorem content_length_boundary :
    (∀ (n : Nat) (s : String), s.length = n → maxLenOk n s = true) ∧
    (∀ (n : Nat) (s : String), s.length = n + 1 → maxLenOk n s = false) ∧
    (tenKContent.length = 10000 ∧ validPromptCreate tenKPromptCreate = true) ∧
    (∀ p : Prompt, validPrompt p = true → p.content.length ≤ 10000) ∧
    (∀ p : Prompt, p.content.length = 10001 → validPrompt p = false) ∧
    (∀ c : PromptCreate, validPromptCreate c = true → c.content.length ≤ 10000) ∧
    (∀ c : PromptCreate, c.content.length = 10001 → validPromptCreate c = false) ∧
    (∀ (c : PromptCreate) (now : DateTime) (p : Prompt),
      c.content.length = 10001 → createPrompt c now ≠ Except.ok p) := by
  have hlen : tenKContent.length = 10000 := by
    show (List.replicate 10000 'a').length = 10000
    rw [List.length_replicate]
  have hgen1 : ∀ (n : Nat) (s : String), s.length = n → maxLenOk n s = true := by
    intro n s h
    simp [maxLenOk, h]
  have hgen2 : ∀ (n : Nat) (s : String), s.length = n + 1 → maxLenOk n s = false := by
    intro n s h
    simp [maxLenOk, h]
  have hacc : validPromptCreate tenKPromptCreate = true := by
    simp [validPromptCreate, tenKPromptCreate, maxLenOk, hlen]
    decide
  have hp1 : ∀ p : Prompt, validPrompt p = true → p.content.length ≤ 10000 := by
    intro p hv
    simp only [validPrompt, Bool.and_eq_true] at hv
    simpa [maxLenOk] using hv.1.1.2
  have hp2 : ∀ p : Prompt, p.content.length = 10001 → validPrompt p = false := by
    intro p h
    cases hb : validPrompt p with
    | false => rfl
    | true => exfalso; have := hp1 p hb; omega
  have hc1 : ∀ c : PromptCreate, validPromptCreate c = true → c.content.length ≤ 10000 := by
    intro c hv
    simp only [validPromptCreate, Bool.and_eq_true] at hv
    simpa [maxLenOk] using hv.1.2
  have hc2 : ∀ c : PromptCreate, c.content.length = 10001 → validPromptCreate c = false := by
    intro c h
    cases hb : validPromptCreate c with
    | false => rfl
    | true => exfalso; have := hc1 c hb; omega
  have hcp : ∀ (c : PromptCreate) (now : DateTime) (p : Prompt),
      c.content.length = 10001 → createPrompt c now ≠ Except.ok p := by
    intro c now p h hok
    simp [createPrompt, hc2 c h] at hok
  exact ⟨hgen1, hgen2, ⟨hlen, hacc⟩, hp1, hp2, hc1, hc2, hcp⟩
